import Mathlib

/-
  Verification of the VCard-Tracker data-access layer.

  The Python source (src/vcard_tracker) is shallowly embedded: the SQLite
  database is a list of card rows in insertion order, each row carrying its
  optional 1:1 detail records and optional CollectionStatus, exactly as the
  SQLAlchemy schema relates them.  Wall-clock datetimes are numeric
  timestamps (a `Nat` passed in as `now`); `strftime` rendering is abstracted
  as `toString` of that number, since only the presence and the counterpart
  text of notes matter to the properties checked here.
-/

namespace VCard

/-- Element enumeration from models/base.py. -/
inductive Element where
  | fire
  | water
  | grass
  | electric
  | platinum
deriving DecidableEq

/-- CardType enumeration from models/base.py. -/
inductive CardType where
  | character
  | support
  | guardian
  | shield
deriving DecidableEq

/-- Acquisition enumeration from models/base.py. -/
inductive Acquisition where
  | pulled
  | traded
  | gifted
deriving DecidableEq

/-- CharacterDetails row (database/schema.py): the 1:1 extension of a card
holding the gameplay attributes of CHARACTER cards. -/
structure CharacterDetails where
  power_level : Option Int
  element : Option Element
  age : Option String
  height : Option String
  weight : Option String
  elemental_strength : Option Element
  elemental_weakness : Option Element
  is_box_topper : Bool
  is_mascott : Bool
deriving DecidableEq

/-- SupportDetails row (database/schema.py). -/
structure SupportDetails where
  is_secret_rare : Bool
deriving DecidableEq

/-- ElementalDetails row (database/schema.py): guardian/shield element. -/
structure ElementalDetails where
  element : Element
deriving DecidableEq

/-- CollectionStatus row (database/schema.py): the mutable per-card
ownership record. -/
structure CollectionStatus where
  is_collected : Bool
  is_holo : Bool
  is_promo : Bool
  is_misprint : Bool
  acquisition : Option Acquisition
  date_acquired : Option Nat
  notes : Option String
deriving DecidableEq

/-- A fresh `CollectionStatus()` with the schema's column defaults. -/
def CollectionStatus.new : CollectionStatus :=
  ⟨false, false, false, false, none, none, none⟩

/-- Card row (database/schema.py) with its optional 1:1 related rows, as the
ORM relationships expose them on a loaded Card object. -/
structure Card where
  name : String
  card_type : CardType
  talent : String
  edition : String
  card_number : String
  illustrator : String
  character_details : Option CharacterDetails
  support_details : Option SupportDetails
  elemental_details : Option ElementalDetails
  collection_status : Option CollectionStatus
deriving DecidableEq

/-- Database state: the card table in row (insertion) order. -/
abbrev DB := List Card

/-- Predicate for the `Card.card_number == n` WHERE clause. -/
def has_number (n : String) (c : Card) : Bool :=
  c.card_number == n

/-- The `session.scalar(select(Card).where(Card.card_number == n))` lookup:
first row with the given number. -/
def lookup_card (db : DB) (n : String) : Option Card :=
  db.find? (has_number n)

/-- Collection status of the first row with the given number, when any. -/
def lookup_status (db : DB) (n : String) : Option CollectionStatus :=
  (lookup_card db n).bind (fun c => c.collection_status)

/-- Update the first list element satisfying `p` by `f`, leaving the rest
unchanged: the effect of mutating a single ORM row object and committing. -/
def update_first {α : Type} (p : α → Bool) (f : α → α) : List α → List α
  | [] => []
  | c :: rest => if p c then f c :: rest else c :: update_first p f rest

/-- Field updates of `DatabaseManager.update_collection_status` on an
existing (or fresh) status row: `is_collected` and `is_holo` are assigned
unconditionally; `acquisition` only when not None; `notes` only when truthy
(None and the empty string leave it unchanged). -/
def status_update (is_collected is_holo : Bool) (acq : Option Acquisition)
    (notes : Option String) (st : CollectionStatus) : CollectionStatus :=
  let st1 := { st with is_collected := is_collected, is_holo := is_holo }
  let st2 := match acq with
    | some a => { st1 with acquisition := some a }
    | none => st1
  match notes with
  | some s => if s == "" then st2 else { st2 with notes := some s }
  | none => st2

/-- Apply `update_collection_status`'s mutation to one card row, creating
the CollectionStatus record when the card has none. -/
def status_update_card (is_collected is_holo : Bool) (acq : Option Acquisition)
    (notes : Option String) (c : Card) : Card :=
  { c with collection_status := some (status_update is_collected is_holo acq
      notes (c.collection_status.getD CollectionStatus.new)) }

/-- DatabaseManager.update_collection_status (manager.py 486-530): looks the
card up by number, returns False when absent, otherwise creates the status
row if missing, applies the field updates and commits, returning True. -/
def update_collection_status (db : DB) (card_number : String)
    (is_collected is_holo : Bool) (acq : Option Acquisition)
    (notes : Option String) : DB × Bool :=
  match lookup_card db card_number with
  | none => (db, false)
  | some _ =>
      (update_first (has_number card_number)
        (status_update_card is_collected is_holo acq notes) db, true)

/-- DatabaseManager.bulk_update_collection (manager.py 720-757): selects the
rows whose number is in the given list and updates each in place, stamping
`date_acquired` with now on a first transition into collected state.  Rows
whose numbers are absent from the table are simply not selected; nothing in
the body raises for them, so the commit succeeds and True is returned. -/
def bulk_update_collection (db : DB) (card_numbers : List String)
    (is_collected : Bool) (now : Nat) : DB × Bool :=
  (db.map (fun c =>
    if card_numbers.any (fun n => c.card_number == n) then
      let st := c.collection_status.getD CollectionStatus.new
      let st := { st with is_collected := is_collected }
      let st := if is_collected && st.date_acquired == none then
          { st with date_acquired := some now }
        else st
      { c with collection_status := some st }
    else c), true)

/-- Note text written on the acquired side of a trade, with the counterpart
row's name and number interpolated. -/
def trade_note_acquired (td : Nat) (other : Card) : String :=
  "[" ++ toString td ++ "] Acquired in trade for " ++ other.name ++
    " (" ++ other.card_number ++ ")"

/-- Note text written on the traded-away side of a trade. -/
def trade_note_traded (td : Nat) (other : Card) : String :=
  "[" ++ toString td ++ "] Traded for " ++ other.name ++
    " (" ++ other.card_number ++ ")"

/-- Mutation applied to the row unpacked into `acquired` in record_trade. -/
def apply_acquired (td : Nat) (other : Card) (c : Card) : Card :=
  let st := c.collection_status.getD CollectionStatus.new
  { c with collection_status := some { st with
      is_collected := true,
      acquisition := some Acquisition.traded,
      date_acquired := some td,
      notes := some (trade_note_acquired td other) } }

/-- Mutation applied to the row unpacked into `traded` in record_trade. -/
def apply_traded (td : Nat) (other : Card) (c : Card) : Card :=
  let st := c.collection_status.getD CollectionStatus.new
  { c with collection_status := some { st with
      is_collected := false,
      notes := some (trade_note_traded td other) } }

/-- DatabaseManager.record_trade (manager.py 847-910): one query selects the
rows whose number is either of the two arguments and `.all()` is unpacked
into `acquired, traded` — in ROW order of the table, not argument order.
When the result does not have exactly two rows the unpacking raises, the
except branch rolls back and False is returned with no write. -/
def record_trade (db : DB) (acquired_card traded_card : String)
    (trade_date : Option Nat) (now : Nat) : DB × Bool :=
  match db.enum.filter (fun ic =>
      ic.2.card_number == acquired_card ||
      ic.2.card_number == traded_card) with
  | [(i, a), (j, t)] =>
      (db.enum.map (fun ic =>
        if ic.1 == i then apply_acquired (trade_date.getD now) t ic.2
        else if ic.1 == j then apply_traded (trade_date.getD now) a ic.2
        else ic.2), true)
  | _ => (db, false)

/-- Truthiness of `card.collection_status and card.collection_status.is_collected`. -/
def row_collected (c : Card) : Bool :=
  match c.collection_status with
  | some st => st.is_collected
  | none => false

/-- DatabaseManager.get_collected_cards (manager.py 460-482): inner join to
CollectionStatus filtered on is_collected == True. -/
def get_collected_cards (db : DB) : List Card :=
  db.filter row_collected

/-- DatabaseManager.get_missing_cards (manager.py 617-637): outer join to
CollectionStatus keeping rows whose is_collected is NULL (no status row) or
False. -/
def get_missing_cards (db : DB) : List Card :=
  db.filter (fun c =>
    match c.collection_status with
    | some st => !st.is_collected
    | none => true)

/-- DatabaseManager.get_complete_sets (manager.py 641-684): for each
distinct name among rows that join to character_details, collect the name
when every such variant row has a truthy collected status.  Rows without a
character_details record (support, guardian, shield) never enter either the
name list or the variant list. -/
def get_complete_sets (db : DB) : List String :=
  let character_names :=
    ((db.filter (fun c => c.character_details.isSome)).map Card.name).dedup
  character_names.filter (fun name =>
    let variants := db.filter (fun c =>
      c.character_details.isSome && c.name == name)
    variants.all row_collected)

/-- EXISTS clause `Card.character_details.has(element=element)`: NULL
element columns compare unequal to any concrete element. -/
def char_has_element (e : Element) (c : Card) : Bool :=
  match c.character_details with
  | some d => d.element == some e
  | none => false

/-- EXISTS clause `Card.elemental_details.has(element=element)`. -/
def elem_has_element (e : Element) (c : Card) : Bool :=
  match c.elemental_details with
  | some d => d.element == e
  | none => false

/-- Base WHERE clause of DatabaseManager.get_cards_by_element (manager.py
220-278): keeps character rows whose CharacterDetails element matches and
guardian/shield rows whose ElementalDetails element matches. -/
def element_base_filter (e : Element) (c : Card) : Bool :=
  (c.card_type == CardType.character && char_has_element e c) ||
  ((c.card_type == CardType.guardian || c.card_type == CardType.shield) &&
    elem_has_element e c)

/-- DatabaseManager.get_cards_by_element (manager.py 220-278): with
include_support the code appends the clause
`card_type == SUPPORT or card_type != SUPPORT` (a tautology) to the base
filter; without it, it appends `card_type != SUPPORT`. -/
def get_cards_by_element (db : DB) (e : Element) (include_support : Bool) :
    List Card :=
  if include_support then
    db.filter (fun c => element_base_filter e c &&
      (c.card_type == CardType.support || c.card_type != CardType.support))
  else
    db.filter (fun c => element_base_filter e c &&
      c.card_type != CardType.support)

/-- ASCII decimal digit, the ASCII fragment of Python's `\d`.  (Python's
`\d` additionally matches non-ASCII Unicode digits; the card-number theorems
below are stated for ASCII inputs only.) -/
def is_py_digit (c : Char) : Bool :=
  48 ≤ c.toNat && c.toNat ≤ 57

/-- Character class `[A-Z]`. -/
def is_py_upper (c : Char) : Bool :=
  65 ≤ c.toNat && c.toNat ≤ 90

/-- Newline character, relevant to Python's `$` anchor. -/
def is_newline (c : Char) : Bool :=
  c.toNat == 10

/-- Whole-string match of one card-number pattern body: the literal prefix
(two letters and a dash), `nd` digits, and, when `suffix` is set, one
uppercase letter, consuming the entire character list. -/
def pattern_body (pre : String) (nd : Nat) (suffix : Bool) (s : List Char) :
    Bool :=
  let rest := s.drop pre.length
  (s.take pre.length == pre.data) &&
  (if suffix then
    match rest.drop nd with
    | [u] => ((rest.take nd).length == nd && (rest.take nd).all is_py_digit)
        && is_py_upper u
    | _ => false
  else
    ((rest.take nd).length == nd && (rest.take nd).all is_py_digit) &&
      rest.drop nd == [])

/-- Python `re.match` with a `^...$` pattern: `$` asserts the end of the
string or the position just before one final newline, so the body may leave
either nothing or a single trailing newline unconsumed. -/
def py_dollar_match (pat : List Char → Bool) (s : List Char) : Bool :=
  pat s || (match s.getLast? with
    | some c => is_newline c && pat s.dropLast
    | none => false)

/-- Format check of DatabaseManager.validate_card_number (manager.py
945-958): any of the five generation-A patterns matches under Python
`re.match` semantics. -/
def valid_card_format (s : String) : Bool :=
  py_dollar_match (pattern_body "CH-" 3 true) s.data ||
  py_dollar_match (pattern_body "SP-" 3 true) s.data ||
  py_dollar_match (pattern_body "GD-" 3 false) s.data ||
  py_dollar_match (pattern_body "SH-" 3 false) s.data ||
  py_dollar_match (pattern_body "PR-" 4 false) s.data

/-- Modelled from the spec's words (section 6, generation A): a card number
is exactly `CH-###A`, `SP-###A`, `GD-###`, `SH-###` or `PR-####`, with no
further characters.  This is the comparison point for the claim about the
format check, stated independently of Python regex anchors. -/
def spec_card_format (s : String) : Bool :=
  pattern_body "CH-" 3 true s.data ||
  pattern_body "SP-" 3 true s.data ||
  pattern_body "GD-" 3 false s.data ||
  pattern_body "SH-" 3 false s.data ||
  pattern_body "PR-" 4 false s.data

/-- DatabaseManager.validate_card_number (manager.py 919-970): empty input,
then format, then a duplicate lookup against the card table. -/
def validate_card_number (db : DB) (card_number : String) :
    Bool × Option String :=
  if card_number == "" then
    (false, some "Card number cannot be empty")
  else if !valid_card_format card_number then
    (false, some "Invalid card number format")
  else if db.any (has_number card_number) then
    (false, some "Card number already exists")
  else
    (true, none)

namespace models

/-- Dataclass CharacterCard (models/character.py): BaseCard fields followed
by the character-specific attributes, prior to `__post_init__` validation. -/
structure CharacterCard where
  name : String
  card_type : CardType
  talent : String
  edition : String
  card_number : String
  illustrator : String
  is_holo : Bool
  is_promo : Bool
  is_misprint : Bool
  acquisition : Option Acquisition
  date_acquired : Option Nat
  notes : String
  power_level : Option Int
  element : Option Element
  age : Option String
  height : Option String
  weight : Option String
  elemental_strength : Option Element
  elemental_weakness : Option Element
  is_box_topper : Bool
  is_mascott : Bool
deriving DecidableEq

/-- CharacterCard.__post_init__ (models/character.py 96-128): the
construction-time validation, returning the ValueError message raised, or
() when construction succeeds. -/
def character_post_init (c : CharacterCard) : Except String Unit :=
  if c.is_box_topper then
    if c.power_level.isSome || c.age.isSome || c.height.isSome ||
        c.weight.isSome || c.elemental_strength.isSome ||
        c.elemental_weakness.isSome then
      Except.error "Box topper cards cannot have gameplay attributes"
    else
      Except.ok ()
  else
    if c.power_level.isNone || c.element.isNone || c.age.isNone ||
        c.height.isNone || c.weight.isNone || c.elemental_strength.isNone ||
        c.elemental_weakness.isNone then
      Except.error "Regular character cards must have all gameplay attributes"
    else if c.is_mascott && c.power_level != some 1 then
      Except.error "Mascot cards must have power level 1"
    else if !c.is_mascott && !(c.power_level == some 8 ||
        c.power_level == some 9 || c.power_level == some 10) then
      Except.error "Regular character cards must have power level 8, 9, or 10"
    else
      Except.ok ()

/-- Dataclass ElementalCard (models/elemental.py): BaseCard plus the single
optional element. -/
structure ElementalCard where
  name : String
  card_type : CardType
  talent : String
  edition : String
  card_number : String
  illustrator : String
  is_holo : Bool
  is_promo : Bool
  is_misprint : Bool
  acquisition : Option Acquisition
  date_acquired : Option Nat
  notes : String
  element : Option Element
deriving DecidableEq

/-- GuardianCard.__post_init__ (models/elemental.py 38-42): forces the card
type and rejects a missing element. -/
def guardian_post_init (c : ElementalCard) : Except String ElementalCard :=
  let c := { c with card_type := CardType.guardian }
  if c.element.isNone then
    Except.error "Guardian cards must have an element"
  else
    Except.ok c

/-- ShieldCard.__post_init__ (models/elemental.py 54-58). -/
def shield_post_init (c : ElementalCard) : Except String ElementalCard :=
  let c := { c with card_type := CardType.shield }
  if c.element.isNone then
    Except.error "Shield cards must have an element"
  else
    Except.ok c

end models

/-- Statistics dictionary returned by import_collection. -/
structure ImportStats where
  imported : Nat
  skipped : Nat
  failed : Nat
  updated : Nat
deriving DecidableEq

/-- The zero-initialised stats dictionary. -/
def ImportStats.zero : ImportStats := ⟨0, 0, 0, 0⟩

/-- One entry of the import file's "cards" array.  The optional outer layer
of `notes` distinguishes a missing "notes" key from a present null value,
because the code assigns `status.notes = card_data["notes"]` whenever the
key is present. -/
structure ImportCard where
  card_number : String
  is_holo : Option Bool
  is_misprint : Option Bool
  date_acquired : Option Nat
  acquisition : Option Acquisition
  notes : Option (Option String)
deriving DecidableEq

/-- An element of the iterated "cards" value: either a well-formed card
dictionary, or one whose processing raises before mutating its row (for
example a dictionary without a "card_number" key), which the per-card
try/except turns into a counted failure. -/
inductive ImportEntry where
  | ok (c : ImportCard)
  | bad
deriving DecidableEq

/-- Shape of the parsed JSON import document as import_collection consumes
it: the top-level "cards" key may be missing (ValueError before the session
opens), may hold a non-iterable value (TypeError once the for loop starts),
or may hold a list of entries. -/
inductive ImportData where
  | noCardsKey
  | cardsNotIterable
  | cards (l : List ImportEntry)
deriving DecidableEq

/-- Deletion of every CollectionStatus row, as
`session.query(CollectionStatus).delete()` leaves the card table. -/
def clear_statuses (db : DB) : DB :=
  db.map (fun c => { c with collection_status := none })

/-- Processing of one well-formed import entry against the session state:
returns the updated table and the stats field to bump. -/
def import_one (strategy : String) (db : DB) (cd : ImportCard) :
    DB × (ImportStats → ImportStats) :=
  match lookup_card db cd.card_number with
  | none => (db, fun s => { s with failed := s.failed + 1 })
  | some card =>
      let already := row_collected card
      let bump : ImportStats → ImportStats :=
        if already then
          if strategy == "update" then
            fun s => { s with updated := s.updated + 1 }
          else
            fun s => s
        else
          fun s => { s with imported := s.imported + 1 }
      if already && strategy == "skip" then
        (db, fun s => { s with skipped := s.skipped + 1 })
      else
        let f : Card → Card := fun c =>
          let st := c.collection_status.getD CollectionStatus.new
          let st := { st with
            is_collected := true,
            is_holo := cd.is_holo.getD false,
            is_misprint := cd.is_misprint.getD false }
          let st := match cd.date_acquired with
            | some d => { st with date_acquired := some d }
            | none => st
          let st := match cd.acquisition with
            | some a => { st with acquisition := some a }
            | none => st
          let st := match cd.notes with
            | some n => { st with notes := n }
            | none => st
          { c with collection_status := some st }
        (update_first (has_number cd.card_number) f db, bump)

/-- Loop over the entries of the "cards" list with the per-card
try/except: a bad entry only bumps the failed counter. -/
def import_loop (strategy : String) : DB → ImportStats → List ImportEntry →
    DB × ImportStats
  | db, stats, [] => (db, stats)
  | db, stats, ImportEntry.bad :: rest =>
      import_loop strategy db { stats with failed := stats.failed + 1 } rest
  | db, stats, ImportEntry.ok cd :: rest =>
      let (db1, bump) := import_one strategy db cd
      import_loop strategy db1 (bump stats) rest

/-- DatabaseManager.import_collection (manager.py 1503-1602).  A missing
"cards" key raises ValueError before the session opens, so the outer except
returns zero stats with no row touched.  Under the replace strategy the
deletion of all CollectionStatus rows is committed immediately
(`session.commit()` at line 1547); if iterating "cards" then raises — for
instance because it is not iterable — the outer except returns zero stats,
but the committed deletion persists.  Otherwise every entry is processed
under a per-card try/except and the session commits at the end. -/
def import_collection (db : DB) (data : ImportData) (strategy : String) :
    DB × ImportStats :=
  match data with
  | ImportData.noCardsKey => (db, ImportStats.zero)
  | ImportData.cardsNotIterable =>
      if strategy == "replace" then (clear_statuses db, ImportStats.zero)
      else (db, ImportStats.zero)
  | ImportData.cards l =>
      let db1 := if strategy == "replace" then clear_statuses db else db
      import_loop strategy db1 ImportStats.zero l

/-- Card row template for concrete test databases. -/
def base_row (name num : String) (t : CardType) : Card :=
  { name := name, card_type := t, talent := "", edition := "First",
    card_number := num, illustrator := "Louriii", character_details := none,
    support_details := none, elemental_details := none,
    collection_status := none }

/-- Regular character details at a given power level. -/
def cd (pl : Int) : CharacterDetails :=
  ⟨some pl, some Element.platinum, some "?", some "170", some "60",
    some Element.electric, some Element.grass, false, false⟩

/-- Box-topper character details: all gameplay attributes NULL. -/
def cd_bt : CharacterDetails :=
  ⟨none, none, none, none, none, none, none, true, false⟩

/-- A bare collected status row. -/
def collected_status : CollectionStatus :=
  { CollectionStatus.new with is_collected := true }

/-- A status row with every optional field populated. -/
def exStatus : CollectionStatus :=
  ⟨true, true, false, false, some Acquisition.pulled, some 3, some "note"⟩

/-- Single-card database whose card has the fully populated status. -/
def exC1db : DB :=
  [{ base_row "FREAM" "CH-001A" CardType.character with
      character_details := some (cd 8), collection_status := some exStatus }]

/-
  Helper lemmas about the first-match update.
-/

/-- Updating the first match commutes with first-match lookup when the
update preserves the predicate. -/
theorem find?_update_first {α : Type} (p : α → Bool) (f : α → α)
    (hp : ∀ c, p (f c) = p c) (l : List α) :
    List.find? p (update_first p f l) = (List.find? p l).map f := by
  induction l with
  | nil => rfl
  | cons c rest ih =>
      by_cases hc : p c = true
      · simp [update_first, hc, List.find?_cons_of_pos, hp c]
      · have hc' : p c = false := by
          cases h : p c
          · rfl
          · exact absurd h hc
        simp [update_first, hc', List.find?_cons_of_neg, ih]

/-- Updating the first match twice with an idempotent update equals
updating it once. -/
theorem update_first_idem {α : Type} (p : α → Bool) (f : α → α)
    (hp : ∀ c, p (f c) = p c) (hf : ∀ c, f (f c) = f c) (l : List α) :
    update_first p f (update_first p f l) = update_first p f l := by
  induction l with
  | nil => rfl
  | cons c rest ih =>
      by_cases hc : p c = true
      · simp [update_first, hc, hp c, hf c]
      · have hc' : p c = false := by
          cases h : p c
          · rfl
          · exact absurd h hc
        simp [update_first, hc', ih]

/-- The mutation of update_collection_status keeps the card number. -/
theorem status_update_card_number (b h : Bool) (a : Option Acquisition)
    (n : Option String) (c : Card) :
    (status_update_card b h a n c).card_number = c.card_number := rfl

/-- The mutation keeps the lookup predicate. -/
theorem status_update_card_pred (num : String) (b h : Bool)
    (a : Option Acquisition) (n : Option String) (c : Card) :
    has_number num (status_update_card b h a n c) = has_number num c := rfl

/-- The per-status field update of update_collection_status is
idempotent. -/
theorem status_update_idem (b h : Bool) (a : Option Acquisition)
    (n : Option String) (st : CollectionStatus) :
    status_update b h a n (status_update b h a n st)
      = status_update b h a n st := by
  cases a <;> cases n <;> simp only [status_update]
  case none.some s =>
    by_cases hs : (s == "") = true <;> simp [hs]
  case some.some a s =>
    by_cases hs : (s == "") = true <;> simp [hs]

/-- The per-card mutation of update_collection_status is idempotent. -/
theorem status_update_card_idem (b h : Bool) (a : Option Acquisition)
    (n : Option String) (c : Card) :
    status_update_card b h a n (status_update_card b h a n c)
      = status_update_card b h a n c := by
  simp [status_update_card, status_update_idem]

/-- Status lookup after update_collection_status on a card that already has
a status row. -/
theorem lookup_status_update (db : DB) (num : String) (st : CollectionStatus)
    (hst : lookup_status db num = some st) (b h : Bool)
    (a : Option Acquisition) (n : Option String) :
    lookup_status (update_collection_status db num b h a n).1 num
      = some (status_update b h a n st) := by
  unfold lookup_status at hst
  cases hcard : lookup_card db num with
  | none => rw [hcard] at hst; exact absurd hst (by simp)
  | some c =>
      rw [hcard] at hst
      simp only [Option.some_bind] at hst
      unfold update_collection_status
      rw [hcard]
      unfold lookup_status lookup_card
      simp only [find?_update_first (has_number num)
        (status_update_card b h a n) (status_update_card_pred num b h a n) db]
      unfold lookup_card at hcard
      rw [hcard]
      simp [status_update_card, hst]

/-- C1: update_collection_status is idempotent on identical inputs —
running it a second time with the same arguments leaves both the stored
state and the returned flag unchanged — and on a card with a stored status,
a call passing acquisition = None keeps the previously stored acquisition,
while notes passed as None or as the empty string keep the stored notes. -/
theorem update_collection_status_idempotent (db : DB) (num : String)
    (b h : Bool) (a : Option Acquisition) (n : Option String) :
    (update_collection_status
        (update_collection_status db num b h a n).1 num b h a n
      = update_collection_status db num b h a n)
  ∧ (∀ st x, lookup_status db num = some st → st.acquisition = some x →
      ∀ b2 h2 n2,
        (lookup_status (update_collection_status db num b2 h2 none n2).1
          num).map CollectionStatus.acquisition = some (some x))
  ∧ (∀ st, lookup_status db num = some st →
      ∀ b2 h2 a2 n2, (n2 = none ∨ n2 = some "") →
        (lookup_status (update_collection_status db num b2 h2 a2 n2).1
          num).map CollectionStatus.notes = some st.notes) := by
  refine ⟨?_, ?_, ?_⟩
  · cases hcard : lookup_card db num with
    | none => simp [update_collection_status, hcard]
    | some c =>
        have hfind : lookup_card
            (update_first (has_number num) (status_update_card b h a n) db)
            num = some (status_update_card b h a n c) := by
          unfold lookup_card
          rw [find?_update_first (has_number num) (status_update_card b h a n)
            (status_update_card_pred num b h a n) db]
          unfold lookup_card at hcard
          rw [hcard]
          rfl
        simp only [update_collection_status, hcard, hfind]
        rw [update_first_idem (has_number num) (status_update_card b h a n)
          (status_update_card_pred num b h a n)
          (status_update_card_idem b h a n) db]
  · intro st x hst hacq b2 h2 n2
    rw [lookup_status_update db num st hst b2 h2 none n2]
    cases n2 with
    | none => simp [status_update, hacq]
    | some s =>
        by_cases hs : (s == "") = true <;> simp [status_update, hs, hacq]
  · intro st hst b2 h2 a2 n2 hn2
    rcases hn2 with hn2 | hn2 <;> subst hn2 <;>
      rw [lookup_status_update db num st hst b2 h2 a2 _] <;>
      cases a2 <;> simp [status_update]

/-- Witness for C1 on a concrete one-card database. -/
theorem update_collection_status_idempotent_witness :
    (update_collection_status
        (update_collection_status exC1db "CH-001A" true true none none).1
        "CH-001A" true true none none
      = update_collection_status exC1db "CH-001A" true true none none)
  ∧ ((lookup_status
        (update_collection_status exC1db "CH-001A" false false none none).1
        "CH-001A").map CollectionStatus.acquisition
      = some (some Acquisition.pulled))
  ∧ ((lookup_status
        (update_collection_status exC1db "CH-001A" false false none
          (some "")).1 "CH-001A").map CollectionStatus.notes
      = some (some "note")) := by
  refine ⟨(update_collection_status_idempotent exC1db "CH-001A" true true
      none none).1,
    (update_collection_status_idempotent exC1db "CH-001A" true true none
      none).2.1 exStatus Acquisition.pulled rfl rfl false false none,
    ?_⟩
  have := (update_collection_status_idempotent exC1db "CH-001A" true true
    none none).2.2 exStatus rfl false false none (some "") (Or.inr rfl)
  simpa using this

/-- C10: every call of update_collection_status assigns the is_holo
argument unconditionally, so a call made with the default is_holo = False
resets a stored True back to False while the same call (with acquisition
and notes not supplied) preserves the stored acquisition and notes. -/
theorem update_collection_status_overwrites_is_holo (db : DB) (num : String)
    (st : CollectionStatus) (hst : lookup_status db num = some st)
    (hholo : st.is_holo = true) (b : Bool) :
    (lookup_status (update_collection_status db num b false none none).1
        num).map CollectionStatus.is_holo = some false
  ∧ (lookup_status (update_collection_status db num b false none none).1
        num).map CollectionStatus.acquisition = some st.acquisition
  ∧ (lookup_status (update_collection_status db num b false none none).1
        num).map CollectionStatus.notes = some st.notes := by
  rw [lookup_status_update db num st hst b false none none]
  simp [status_update]

/-- Witness for C10 on the concrete database: the stored is_holo is True
and the call resets it while keeping acquisition and notes. -/
theorem update_collection_status_overwrites_is_holo_witness :
    ((lookup_status
        (update_collection_status exC1db "CH-001A" true false none none).1
        "CH-001A").map CollectionStatus.is_holo = some false)
  ∧ exStatus.is_holo = true :=
  ⟨(update_collection_status_overwrites_is_holo exC1db "CH-001A" exStatus
      rfl rfl true).1, rfl⟩

/-- Membership in get_collected_cards. -/
theorem mem_get_collected (db : DB) (c : Card) :
    c ∈ get_collected_cards db ↔ c ∈ db ∧ row_collected c = true := by
  unfold get_collected_cards
  exact List.mem_filter

/-- Membership in get_missing_cards. -/
theorem mem_get_missing (db : DB) (c : Card) :
    c ∈ get_missing_cards db ↔ c ∈ db ∧ row_collected c = false := by
  unfold get_missing_cards
  rw [List.mem_filter]
  unfold row_collected
  cases c.collection_status <;> simp

/-- C4: on a catalog whose card numbers are unique (the catalog invariant
the validation layer enforces), the card numbers of get_collected_cards and
of get_missing_cards are disjoint, and together they are exactly the card
numbers of the catalog; a card with no CollectionStatus row counts as
missing. -/
theorem missing_collected_partition (db : DB)
    (hnod : (db.map Card.card_number).Nodup) :
    (∀ n, ¬(n ∈ (get_collected_cards db).map Card.card_number ∧
            n ∈ (get_missing_cards db).map Card.card_number)) ∧
    (∀ n, n ∈ db.map Card.card_number ↔
        (n ∈ (get_collected_cards db).map Card.card_number ∨
         n ∈ (get_missing_cards db).map Card.card_number)) := by
  have hinj := List.inj_on_of_nodup_map hnod
  constructor
  · rintro n ⟨h1, h2⟩
    rw [List.mem_map] at h1 h2
    obtain ⟨c1, hc1, hn1⟩ := h1
    obtain ⟨c2, hc2, hn2⟩ := h2
    rw [mem_get_collected] at hc1
    rw [mem_get_missing] at hc2
    have : c1 = c2 := hinj hc1.1 hc2.1 (hn1.trans hn2.symm)
    rw [this, hc2.2] at hc1
    exact absurd hc1.2 (by simp)
  · intro n
    constructor
    · intro hn
      rw [List.mem_map] at hn
      obtain ⟨c, hc, hcn⟩ := hn
      cases hrc : row_collected c
      · right
        rw [List.mem_map]
        exact ⟨c, (mem_get_missing db c).2 ⟨hc, hrc⟩, hcn⟩
      · left
        rw [List.mem_map]
        exact ⟨c, (mem_get_collected db c).2 ⟨hc, hrc⟩, hcn⟩
    · rintro (hn | hn) <;> rw [List.mem_map] at hn ⊢
      · obtain ⟨c, hc, hcn⟩ := hn
        exact ⟨c, ((mem_get_collected db c).1 hc).1, hcn⟩
      · obtain ⟨c, hc, hcn⟩ := hn
        exact ⟨c, ((mem_get_missing db c).1 hc).1, hcn⟩

/-- Two-card database for the C4 witness: one collected guardian, one
shield with no CollectionStatus row. -/
def exC4db : DB :=
  [{ base_row "AMPO" "GD-001" CardType.guardian with
      elemental_details := some ⟨Element.fire⟩,
      collection_status := some collected_status },
   { base_row "SHELL" "SH-001" CardType.shield with
      elemental_details := some ⟨Element.fire⟩ }]

/-- Witness for C4 on the concrete two-card database. -/
theorem missing_collected_partition_witness :
    ¬("GD-001" ∈ (get_collected_cards exC4db).map Card.card_number ∧
      "GD-001" ∈ (get_missing_cards exC4db).map Card.card_number) :=
  (missing_collected_partition exC4db (by decide)).1 "GD-001"

/-- C5 (amended): get_complete_sets returns a name exactly when some
catalog row with that name has a CharacterDetails record and every catalog
row with that name THAT HAS a CharacterDetails record carries a collected
status; rows of the same name without character details (support, guardian,
shield rows) are not consulted. -/
theorem get_complete_sets_spec (db : DB) (name : String) :
    name ∈ get_complete_sets db ↔
      ((∃ c, c ∈ db ∧ c.character_details.isSome = true ∧ c.name = name) ∧
       (∀ c, c ∈ db → c.character_details.isSome = true → c.name = name →
         row_collected c = true)) := by
  unfold get_complete_sets
  rw [List.mem_filter, List.mem_dedup]
  simp only [List.mem_map, List.mem_filter, List.all_eq_true,
    Bool.and_eq_true, beq_iff_eq]
  constructor
  · rintro ⟨⟨c, ⟨hc, hsome⟩, hname⟩, hall⟩
    refine ⟨⟨c, hc, hsome, hname⟩, ?_⟩
    intro c2 hc2 hsome2 hname2
    exact hall c2 ⟨hc2, hsome2, hname2⟩
  · rintro ⟨⟨c, hc, hsome, hname⟩, hall⟩
    refine ⟨⟨c, ⟨hc, hsome⟩, hname⟩, ?_⟩
    rintro c2 ⟨hc2, hsome2, hname2⟩
    exact hall c2 hc2 hsome2 hname2

/-- Collected character row and an uncollected support row sharing the
name AYOLI: the counterexample catalog for C5. -/
def exC5db : DB :=
  [{ base_row "AYOLI" "CH-002A" CardType.character with
      character_details := some (cd 8),
      collection_status := some collected_status },
   { base_row "AYOLI" "SP-001A" CardType.support with
      support_details := some ⟨false⟩ }]

/-- Counterexample to C5 as stated: AYOLI is returned by get_complete_sets
although the support row named AYOLI has no collected status, so it is not
the case that every catalog row with that name is collected. -/
theorem get_complete_sets_counterexample :
    "AYOLI" ∈ get_complete_sets exC5db ∧
    ¬(∀ c ∈ exC5db, c.name = "AYOLI" → row_collected c = true) := by
  decide

/-- Fresh two-card catalog from the spec's bulk-update example. -/
def exC2db : DB :=
  [{ base_row "FREAM" "106" CardType.character with
      character_details := some (cd 8) },
   { base_row "HELPER" "SP-001" CardType.support with
      support_details := some ⟨false⟩ }]

/-- C2: evaluation of bulk_update_collection at the claim's failing input.
On the fresh catalog, a list with an unknown number returns True with the
table unchanged (the select simply matches no rows and nothing raises),
where the claim — and the repository's own test
test_bulk_update_collection_invalid_cards — demand False.  The positive
half of the claim does hold: updating two existing numbers returns True and
stamps both rows collected with a date. -/
theorem bulk_update_collection_missing_number_bug :
    (bulk_update_collection exC2db ["NOT-REAL"] true 0 = (exC2db, true)) ∧
    ((bulk_update_collection exC2db ["106", "SP-001"] true 5).2 = true) ∧
    ((lookup_status (bulk_update_collection exC2db ["106", "SP-001"] true
        5).1 "106").map (fun st => (st.is_collected, st.date_acquired))
      = some (true, some 5)) ∧
    ((lookup_status (bulk_update_collection exC2db ["106", "SP-001"] true
        5).1 "SP-001").map (fun st => (st.is_collected, st.date_acquired))
      = some (true, some 5)) := by
  refine ⟨rfl, rfl, rfl, rfl⟩

/-- Two character rows in insertion order 106, 107: the C3 database. -/
def exTradeDb : DB :=
  [{ base_row "FREAM" "106" CardType.character with
      character_details := some (cd 8) },
   { base_row "FREAM" "107" CardType.character with
      character_details := some (cd 9) }]

/-- C3: evaluation of record_trade at the claim's failing input.  Calling
record_trade with acquired = "107" and traded = "106" returns True but
marks row 106 — the TRADED-AWAY argument — as collected with acquisition
TRADED, and leaves row 107 — the ACQUIRED argument — not collected, because
the query result is unpacked in table row order rather than argument order.
The unresolvable-number half of the claim does hold: a missing counterpart
returns False with no write. -/
theorem record_trade_row_order_bug :
    ((record_trade exTradeDb "107" "106" none 0).2 = true) ∧
    ((lookup_status (record_trade exTradeDb "107" "106" none 0).1
        "107").map CollectionStatus.is_collected = some false) ∧
    ((lookup_status (record_trade exTradeDb "107" "106" none 0).1
        "106").map (fun st => (st.is_collected, st.acquisition))
      = some (true, some Acquisition.traded)) ∧
    (record_trade exTradeDb "106" "MISSING" none 0 = (exTradeDb, false)) := by
  refine ⟨rfl, rfl, rfl, rfl⟩

/-- Fire character and a support card: the C6 catalog. -/
def exC6char : Card :=
  { base_row "WARRIOR" "CH-003A" CardType.character with
      character_details := some ⟨some 8, some Element.fire, some "?",
        some "?", some "?", some Element.grass, some Element.water, false,
        false⟩ }

/-- Support row for the C6 catalog. -/
def exC6support : Card :=
  { base_row "POTION" "SP-002A" CardType.support with
      support_details := some ⟨false⟩ }

/-- The C6 catalog. -/
def exC6db : DB := [exC6char, exC6support]

/-- C6: the include_support flag of get_cards_by_element has no effect on
any database — the clause it adds is a tautology on top of a base filter
that already excludes support cards — so with include_support = True the
support card is still left out, where the claim and the method's own
docstring say it is included. -/
theorem get_cards_by_element_ignores_include_support :
    (∀ (db : DB) (e : Element),
      get_cards_by_element db e true = get_cards_by_element db e false) ∧
    get_cards_by_element exC6db Element.fire true = [exC6char] ∧
    exC6support ∈ exC6db := by
  refine ⟨?_, rfl, by decide⟩
  intro db e
  show db.filter (fun c => element_base_filter e c &&
      (c.card_type == CardType.support || c.card_type != CardType.support))
    = db.filter (fun c => element_base_filter e c &&
      c.card_type != CardType.support)
  apply List.filter_congr
  intro c _
  unfold element_base_filter
  cases hct : c.card_type <;>
    cases hch : char_has_element e c <;>
    cases hel : elem_has_element e c <;> rfl

/-- Single-card catalog with a fully populated collected status: the C7
counterexample state. -/
def exC7db : DB :=
  [{ base_row "FREAM" "106" CardType.character with
      character_details := some (cd 8), collection_status := some exStatus }]

/-- Counterexample to C7 as stated: an import call whose "cards" value is
present but not iterable, run with merge_strategy = "replace", commits the
deletion of every CollectionStatus row (that commit happens before the loop
starts) and then fails, importing nothing — so this single call commits
only part of its writes and the database is left changed by a failed
call. -/
theorem import_collection_partial_commit_counterexample :
    import_collection exC7db ImportData.cardsNotIterable "replace"
      = (clear_statuses exC7db, ImportStats.zero) ∧
    clear_statuses exC7db ≠ exC7db := by
  refine ⟨rfl, by decide⟩

/-- C7 (amended): a missing top-level "cards" key fails hard before any row
is touched; the other mutation operations either leave the table unchanged
or report success (bulk_update_collection cannot even fail); but
import_collection with the replace strategy commits the deletion of all
CollectionStatus rows in its own transaction before importing, so a failure
while iterating "cards" leaves that deletion committed. -/
theorem import_collection_atomicity_amended :
    (∀ (db : DB) (strategy : String),
      import_collection db ImportData.noCardsKey strategy
        = (db, ImportStats.zero)) ∧
    (∀ (db : DB) (strategy : String),
      import_collection db ImportData.cardsNotIterable strategy
        = (if strategy == "replace" then clear_statuses db else db,
            ImportStats.zero)) ∧
    (∀ (db : DB) (ns : List String) (b : Bool) (now : Nat),
      (bulk_update_collection db ns b now).2 = true) ∧
    (∀ (db : DB) (a t : String) (d : Option Nat) (now : Nat),
      (record_trade db a t d now).1 = db ∨
        (record_trade db a t d now).2 = true) ∧
    (∀ (db : DB) (num : String) (b h : Bool) (acq : Option Acquisition)
        (n : Option String),
      (update_collection_status db num b h acq n).1 = db ∨
        (update_collection_status db num b h acq n).2 = true) := by
  refine ⟨fun db s => rfl, fun db s => ?_, fun db ns b now => rfl,
    fun db a t d now => ?_, fun db num b h acq n => ?_⟩
  · by_cases hs : (s == "replace") = true <;>
      simp [import_collection, hs]
  · unfold record_trade
    split
    · right; rfl
    · left; rfl
  · unfold update_collection_status
    cases lookup_card db num <;> simp

/-- Counterexample to C8 as stated: the string CH-001A followed by a
newline does not have any of the five per-type formats, yet
validate_card_number accepts it against the empty table, because Python's
`$` anchor also matches just before one final newline. -/
theorem validate_card_number_trailing_newline_counterexample :
    (spec_card_format "CH-001A\n" = false) ∧
    (validate_card_number [] "CH-001A\n" = (true, none)) ∧
    (validate_card_number [] "CH-001A\n"
      ≠ (false, some "Invalid card number format")) := by
  refine ⟨rfl, rfl, by decide⟩

/-- C8 (amended): over ASCII inputs, validate_card_number returns the empty
message exactly on the empty string, the invalid-format message exactly on
non-empty strings rejected by the format check, (True, None) on accepted
strings that are not in the table and the duplicate message on accepted
strings that are — and the accepted strings are exactly the five per-type
formats allowing one optional trailing newline (Python `$` semantics).  As
a total function it never throws. -/
theorem validate_card_number_amended (db : DB) (s : String)
    (hascii : s.data.all (fun c => c.toNat ≤ 127) = true) :
    (s = "" →
      validate_card_number db s = (false, some "Card number cannot be empty")) ∧
    (s ≠ "" → valid_card_format s = false →
      validate_card_number db s
        = (false, some "Invalid card number format")) ∧
    (valid_card_format s = true → db.any (has_number s) = false →
      validate_card_number db s = (true, none)) ∧
    (valid_card_format s = true → db.any (has_number s) = true →
      validate_card_number db s
        = (false, some "Card number already exists")) ∧
    (valid_card_format s = (spec_card_format s ||
      (match s.data.getLast? with
        | some c => is_newline c &&
            spec_card_format (String.mk s.data.dropLast)
        | none => false))) := by
  refine ⟨?_, ?_, ?_, ?_, ?_⟩
  · intro he
    subst he
    rfl
  · intro hne hfmt
    have hbeq : (s == "") = false := by
      simp [hne]
    simp [validate_card_number, hbeq, hfmt]
  · intro hfmt hdup
    have hne : s ≠ "" := by
      intro he
      subst he
      exact absurd hfmt (by decide)
    have hbeq : (s == "") = false := by
      simp [hne]
    simp [validate_card_number, hbeq, hfmt, hdup]
  · intro hfmt hdup
    have hne : s ≠ "" := by
      intro he
      subst he
      exact absurd hfmt (by decide)
    have hbeq : (s == "") = false := by
      simp [hne]
    simp [validate_card_number, hbeq, hfmt, hdup]
  · have hmk : ∀ l : List Char, (String.mk l).data = l := fun l => rfl
    unfold valid_card_format spec_card_format py_dollar_match
    simp only [hmk]
    cases hlast : s.data.getLast? with
    | none => simp
    | some c =>
        cases hnl : is_newline c
        · simp [hnl]
        · simp only [hnl, Bool.true_and]
          generalize pattern_body "CH-" 3 true s.data.dropLast = b1
          generalize pattern_body "SP-" 3 true s.data.dropLast = b2
          generalize pattern_body "GD-" 3 false s.data.dropLast = b3
          generalize pattern_body "SH-" 3 false s.data.dropLast = b4
          generalize pattern_body "PR-" 4 false s.data.dropLast = b5
          generalize pattern_body "CH-" 3 true s.data = a1
          generalize pattern_body "SP-" 3 true s.data = a2
          generalize pattern_body "GD-" 3 false s.data = a3
          generalize pattern_body "SH-" 3 false s.data = a4
          generalize pattern_body "PR-" 4 false s.data = a5
          revert a1 a2 a3 a4 a5 b1 b2 b3 b4 b5
          decide

/-- Witness for C8: the amended characterisation applied at concrete
inputs, one per accepting and rejecting branch. -/
theorem validate_card_number_amended_witness :
    (validate_card_number [] "GD-123" = (true, none)) ∧
    (validate_card_number exC2db "XX-999"
      = (false, some "Invalid card number format")) ∧
    (validate_card_number exC2db ""
      = (false, some "Card number cannot be empty")) := by
  refine ⟨(validate_card_number_amended [] "GD-123" (by decide)).2.2.1
      (by decide) (by decide),
    (validate_card_number_amended exC2db "XX-999" (by decide)).2.1
      (by decide) (by decide),
    (validate_card_number_amended exC2db "" (by decide)).1 rfl⟩

/-- The level-10 character from the repository's own model test
test_invalid_level_10_non_holo, built with is_holo = False. -/
def level10_non_holo : models.CharacterCard :=
  { name := "FREAM", card_type := CardType.character, talent := "Test",
    edition := "Base", card_number := "TEST-001", illustrator := "Louriii",
    is_holo := false, is_promo := false, is_misprint := false,
    acquisition := none, date_acquired := none, notes := "",
    power_level := some 10, element := some Element.platinum,
    age := some "Test", height := some "Test", weight := some "Test",
    elemental_strength := some Element.electric,
    elemental_weakness := some Element.grass,
    is_box_topper := false, is_mascott := false }

/-- Guardian model card without an element. -/
def exGuardNoElem : models.ElementalCard :=
  { name := "AMPO", card_type := CardType.guardian, talent := "",
    edition := "First", card_number := "GD-001", illustrator := "Louriii",
    is_holo := false, is_promo := false, is_misprint := false,
    acquisition := none, date_acquired := none, notes := "",
    element := none }

/-- C9: evaluation of the constructors at the failing input.  A level-10
character with is_holo = False constructs without any error — the
level-10-must-be-holo invariant is absent from __post_init__ — although the
claim (and the repository's test test_invalid_level_10_non_holo) demand a
ValueError.  The other construction-time invariants named by the claim are
enforced: the same card with power level 7, with a missing gameplay
attribute, as a mascot, or as a box topper is rejected, and so is a
guardian without an element. -/
theorem character_post_init_level10_non_holo_ok :
    (models.character_post_init level10_non_holo = Except.ok ()) ∧
    (models.character_post_init
        { level10_non_holo with power_level := some 7 }
      = Except.error
          "Regular character cards must have power level 8, 9, or 10") ∧
    (models.character_post_init { level10_non_holo with age := none }
      = Except.error
          "Regular character cards must have all gameplay attributes") ∧
    (models.character_post_init
        { level10_non_holo with is_mascott := true }
      = Except.error "Mascot cards must have power level 1") ∧
    (models.character_post_init
        { level10_non_holo with is_box_topper := true }
      = Except.error "Box topper cards cannot have gameplay attributes") ∧
    (models.guardian_post_init exGuardNoElem
      = Except.error "Guardian cards must have an element") := by
  refine ⟨rfl, rfl, rfl, rfl, rfl, rfl⟩

end VCard
